import Mathlib

/-!
Shallow embedding of `src/app.js` (pokeproject): a client-side UI controller
wiring a search box and game cards to an embedded emulator loader, with
menu/in-game UI state preservation and restoration.

The DOM, the `window.EJS_*` globals, timers, and the console are embedded as
an explicit `PageState` record; each event handler of `app.js` becomes a pure
state-transition function.  A JavaScript `TypeError` raised by a property
access on `undefined`/`null` is made explicit in the `thrown` field of a
`StepResult`; observable interactions (configuration-surface writes, script
appends, console logging, the blocking confirm prompt) are recorded, in
order, in the `effects` list.
-/

namespace PokeApp

/-- A game card element (`.game-card.game-card--rom`) with its
`data-rom` / `data-title` attributes (`none` = attribute absent). -/
structure Card where
  rom : Option String
  title : Option String
deriving DecidableEq, Repr

/-- Value of the logo element's `style` attribute.  `absent` = no attribute;
`raw s` = attribute present with literal serialized text `s`; `compact prev`
= the attribute after `enterGameUIState` wrote the compact-mode declarations
(transition / width / opacity / margin-bottom) on top of `prev` through the
CSSOM.  The exact browser serialization of the compact state is abstracted
(the controller never reads it back). -/
inductive StyleVal
  | absent
  | raw (s : String)
  | compact (prev : StyleVal)
deriving DecidableEq, Repr

/-- Abstraction of the serialized compact-mode style declarations written by
`enterGameUIState` (app.js lines 60-63). -/
def compactDecls : String :=
  "transition: width 200ms ease, opacity 200ms ease; width: 160px; opacity: 0.9; margin-bottom: 6px;"

/-- `getAttribute("style")` coerced through `|| ""` (app.js line 20):
an absent attribute (null) becomes the empty string. -/
def styleAttrString : StyleVal → String
  | .absent => ""
  | .raw s => s
  | .compact prev => styleAttrString prev ++ compactDecls

/-- The session DOM built by `openEmulator` inside the launch section:
the `#game` mount element, its appended error messages (children added by
`script.onerror`), and whether the back / fullscreen button listeners have
been attached yet (they are attached after the script append, app.js
lines 191 and 215). -/
structure SessionDom where
  errors : List String
  backWired : Bool
  fullWired : Bool
deriving DecidableEq, Repr

/-- Content of the `#launch` section: either serialized menu markup
(`innerHTML` as a string) or the constructed game session DOM. -/
inductive LaunchContent
  | html (s : String)
  | session (d : SessionDom)
deriving DecidableEq, Repr

/-- The `window.EJS_*` configuration surface read by the external loader
(`none` = global never written, i.e. `undefined`). -/
structure EJSGlobals where
  player : Option String := none
  gameUrl : Option String := none
  gameName : Option String := none
  core : Option String := none
  pathtodata : Option String := none
  startOnLoaded : Option Bool := none
  disableDatabases : Option Bool := none
  disableLocalStorage : Option Bool := none
deriving DecidableEq, Repr

/-- Shape of `window.EJS_emulator.exit` as tested by
`typeof window.EJS_emulator.exit === "function"`: either not a function, or
a function that either returns normally or throws when called. -/
inductive ExitHook
  | notFn
  | fn (throws : Bool)
deriving DecidableEq, Repr

/-- Observable interactions of one handler invocation, in program order. -/
inductive Effect
  | configWrite (key : String)
  | scriptAppend (src : String)
  | confirmPrompt (text : String)
  | callExitHook
  | consoleWarn (msg : String)
  | consoleError (msg : String)
deriving DecidableEq, Repr

/-- The page state seen by the controller.  `pageCards` are the game cards
present in the original menu markup (they live inside the launch section,
so they are findable by `querySelector` exactly while the menu markup is
shown).  `logo` is `none` when the `#title-logo` element does not exist.
`controlsDisplay` is `none` when the `.controls` element does not exist,
otherwise the inline `display` value.  `timers` are the pending
`setTimeout` callbacks as (fire time, placeholder value to restore) in
scheduling order.  `emulator` is `window.EJS_emulator` (set only by the
external engine). -/
structure PageState where
  pageCards : List Card
  launch : LaunchContent
  logo : Option StyleVal
  controlsDisplay : Option String
  gameBtnLabel : String
  placeholder : String
  timers : List (Nat × String)
  focusedGameBtn : Bool
  scripts : List String
  globals : EJSGlobals
  emulator : Option ExitHook
deriving DecidableEq, Repr

/-- A JavaScript runtime error escaping a handler uncaught. -/
inductive JSError
  | typeError (msg : String)
deriving DecidableEq, Repr

/-- Result of one handler invocation: the new page state, an uncaught
exception if one escaped, and the ordered observable effects. -/
structure StepResult where
  state : PageState
  thrown : Option JSError
  effects : List Effect
deriving DecidableEq, Repr

/-- Literal fallback ROM path (app.js line 163). -/
def defaultRom : String := "/[Poke-Nexus] Pokemon - Edicion Rojo Fuego (Esp).gba"

/-- Literal fallback title (app.js line 164). -/
def defaultTitle : String := "Pokemon"

/-- Literal data-path written to `EJS_pathtodata` (app.js line 170). -/
def pathtodataVal : String := "jjjjj/EmulatorJS-main/data/"

/-- Error text rendered into the mount on loader failure (app.js line 184). -/
def loaderErrMsg : String :=
  "No se pudo cargar el emulador (loader.js). Revisa la ruta o abre la consola."

/-- Exit confirmation text (app.js line 192). -/
def confirmText : String :=
  "Advertencia: si sales ahora NO se guardará el progreso. ¿Deseas salir sin guardar? (Antes guarda)"

/-- Transient search feedback placeholder (app.js line 39). -/
def notFoundMsg : String := "No encontrado"

/-- `needle` occurs as a contiguous block of `hay` (character lists). -/
def charsInfix (needle : List Char) : List Char → Bool
  | [] => needle.isEmpty
  | b :: h => needle.isPrefixOf (b :: h) || charsInfix needle h

/-- JavaScript `hay.includes(needle)` on strings. -/
def jsIncludes (hay needle : String) : Bool :=
  charsInfix needle.toList hay.toList

/-- JavaScript `s.startsWith(pre)` (the `^=` attribute selector test). -/
def jsStartsWith (s pre : String) : Bool :=
  pre.toList.isPrefixOf s.toList

/-- JavaScript `s.toLowerCase()` (character-wise lowering). -/
def jsToLower (s : String) : String :=
  String.mk (s.toList.map Char.toLower)

/-- JavaScript `s.trim()`: strip leading and trailing whitespace. -/
def jsTrim (s : String) : String :=
  String.mk (((s.toList.dropWhile Char.isWhitespace).reverse.dropWhile
    Char.isWhitespace).reverse)

/-- JavaScript `v || d` where `v` is a string attribute read that may be
`undefined` (`none`): both `undefined` and `""` are falsy. -/
def jsTruthyOr (v : Option String) (d : String) : String :=
  match v with
  | none => d
  | some s => if s = "" then d else s

/-- `document.getElementById("game") !== null`: the mount exists exactly
while the launch section holds the session DOM. -/
def gameMounted (s : PageState) : Bool :=
  match s.launch with
  | .session _ => true
  | .html _ => false

/-- `document.querySelector(".game-card.game-card--rom")`: the first game
card, findable only while the menu markup is shown (the cards live inside
the launch section and are destroyed when its content is replaced). -/
def firstCard (s : PageState) : Option Card :=
  match s.launch with
  | .html _ => s.pageCards.head?
  | .session _ => none

/-- The kinds of argument `openEmulator` receives at its call sites:
`card c` from the initial card bindings (app.js lines 47, 51); `noArg`
(`undefined`) from the restored keypress binding (app.js line 88);
`clickEvent` from the restored click binding (app.js line 84), which passes
`openEmulator` directly as the listener so the MouseEvent object arrives as
`cardElement`. -/
inductive CardArg
  | noArg
  | card (c : Card)
  | clickEvent
deriving DecidableEq, Repr

/-- Value of `cardElement` after the fallback on app.js line 102. -/
inductive Resolved
  | elem (c : Card)
  | eventObj
  | nullElem
deriving DecidableEq, Repr

/-- app.js line 102: `if (!cardElement) cardElement = document.querySelector(...)`.
A supplied card or event object is truthy and kept; `undefined` triggers the
query, which may itself yield `null`. -/
def resolveCard (arg : CardArg) (s : PageState) : Resolved :=
  match arg with
  | .card c => .elem c
  | .clickEvent => .eventObj
  | .noArg =>
    match firstCard s with
    | some c => .elem c
    | none => .nullElem

/-- `enterGameUIState` (app.js lines 57-65): hide the controls region and
write the compact declarations into the logo's style attribute (both only
if the element exists). -/
def enterGameUIState (s : PageState) : PageState :=
  { s with
    controlsDisplay := s.controlsDisplay.map (fun _ => "none"),
    logo := s.logo.map .compact }

/-- The freshly built session DOM at app.js lines 108-160: empty mount,
listeners not yet attached. -/
def newSessionDom : SessionDom :=
  { errors := [], backWired := false, fullWired := false }

/-- The eight `window.EJS_*` writes of app.js lines 165-174, in order. -/
def configWriteEffects : List Effect :=
  [.configWrite "EJS_player", .configWrite "EJS_gameUrl", .configWrite "EJS_gameName",
   .configWrite "EJS_core", .configWrite "EJS_pathtodata", .configWrite "EJS_startOnLoaded",
   .configWrite "EJS_disableDatabases", .configWrite "EJS_disableLocalStorage"]

/-- `openEmulator` (app.js lines 99-226).  Guard: a no-op while `#game`
exists.  Otherwise: resolve the card, enter compact UI state, replace the
launch content with the session DOM, then read `cardElement.dataset.rom`
(line 163) — which throws a TypeError when `cardElement` is `null` (no card
resolvable) or the MouseEvent object (restored click binding), since neither
has a usable `dataset`.  On the normal path: populate the `EJS_*` globals,
append the loader script, and attach the back / fullscreen listeners. -/
def openEmulator (arg : CardArg) (s : PageState) : StepResult :=
  if gameMounted s then
    { state := s, thrown := none, effects := [] }
  else
    let resolved := resolveCard arg s
    let s1 := enterGameUIState s
    let s2 := { s1 with launch := .session newSessionDom }
    match resolved with
    | .eventObj =>
      { state := s2,
        thrown := some (.typeError "Cannot read properties of undefined (reading rom)"),
        effects := [] }
    | .nullElem =>
      { state := s2,
        thrown := some (.typeError "Cannot read properties of null (reading dataset)"),
        effects := [] }
    | .elem c =>
      let romPath := jsTruthyOr c.rom defaultRom
      let gameTitle := jsTruthyOr c.title defaultTitle
      let g : EJSGlobals :=
        { player := some "#game", gameUrl := some romPath, gameName := some gameTitle,
          core := some "gba", pathtodata := some pathtodataVal, startOnLoaded := some true,
          disableDatabases := some true, disableLocalStorage := some true }
      let src := pathtodataVal ++ "loader.js"
      let s3 := { s2 with
        globals := g,
        scripts := s2.scripts ++ [src],
        launch := .session { newSessionDom with backWired := true, fullWired := true } }
      { state := s3, thrown := none,
        effects := configWriteEffects ++ [.scriptAppend src] }

/-- `script.onerror` (app.js lines 180-187): append a visible error element
to the mount and log to the console.  If the session DOM is gone (the
captured `gameDiv` is detached) the append has no visible effect. -/
def scriptOnError (s : PageState) : StepResult :=
  match s.launch with
  | .session d =>
    { state := { s with launch := .session { d with errors := d.errors ++ [loaderErrMsg] } },
      thrown := none,
      effects := [.consoleError "Failed to load loader.js"] }
  | .html _ =>
    { state := s, thrown := none, effects := [.consoleError "Failed to load loader.js"] }

/-- `restoreMenuUIState` (app.js lines 68-97), closed over the snapshot
(`originalLaunchHTML`, `originalLogoStyle`): put the snapshot markup back
into the launch section; set the logo's style attribute to the snapshot
string if it is truthy, else remove the attribute; clear the inline
`display` of the controls region.  (Lines 82-91 also re-bind activation
handlers onto the restored `#gameBtn`; those re-bound handlers are modelled
by invoking `openEmulator` with `clickEvent` / `noArg`.) -/
def restoreMenuUIState (origHTML origLogo : String) (s : PageState) : PageState :=
  { s with
    launch := .html origHTML,
    logo := s.logo.map (fun _ => if origLogo = "" then .absent else .raw origLogo),
    controlsDisplay := s.controlsDisplay.map (fun _ => "") }

/-- The two loader-script selector text patterns of app.js line 206,
built from `window.EJS_pathtodata` at exit time (template-literal
interpolation of an unset global would give the text "undefined"). -/
def loaderSrcPatterns (s : PageState) : String × String :=
  let p := s.globals.pathtodata.getD "undefined"
  (p ++ "loader.js", p ++ "src/loader.js")

/-- The back button handler (app.js lines 191-212), closed over the
snapshot.  Always shows the blocking confirm prompt.  Declined: nothing
else happens.  Confirmed: call `window.EJS_emulator.exit()` only if that
global exists and `exit` is a function, catching and logging any throw
(lines 197-204); remove the loader script elements matching the known
data-path patterns (lines 206-207); restore the menu UI (line 210). -/
def backBtnClick (origHTML origLogo : String) (userConfirms : Bool) (s : PageState) : StepResult :=
  if userConfirms then
    let hookEffects : List Effect :=
      match s.emulator with
      | some (.fn b) =>
        if b then [.callExitHook, .consoleWarn "EJS_emulator.exit failed"]
        else [.callExitHook]
      | _ => []
    let pats := loaderSrcPatterns s
    let s1 := { s with
      scripts := s.scripts.filter (fun src =>
        !(jsStartsWith src pats.1 || jsStartsWith src pats.2)) }
    let s2 := restoreMenuUIState origHTML origLogo s1
    { state := s2, thrown := none, effects := .confirmPrompt confirmText :: hookEffects }
  else
    { state := s, thrown := none, effects := [.confirmPrompt confirmText] }

/-- The fullscreen toggle handler (app.js lines 215-225): the request /
exit either succeeds or fails; failure is caught and logged, the page state
is untouched either way (the fullscreen element itself belongs to the
browser, not to this state). -/
def fullBtnClick (fsFails : Bool) (s : PageState) : StepResult :=
  if fsFails then
    { state := s, thrown := none, effects := [.consoleWarn "Fullscreen failed"] }
  else
    { state := s, thrown := none, effects := [] }

/-- Result of the search click handler. -/
inductive SearchAction
  | focusTarget
  | notFound
deriving DecidableEq, Repr

/-- The match condition of app.js line 34 on an already trimmed and
lowercased query. -/
def searchMatches (qt label : String) : Bool :=
  jsIncludes (jsToLower label) qt || jsIncludes qt "rojo" ||
    jsIncludes qt "pokemon" || jsIncludes qt "buscar"

/-- The search button handler (app.js lines 26-42).  `q` is the raw input
value, `now` the current time in ms.  Empty trimmed query or a match:
focus the game button.  Otherwise: show the "No encontrado" placeholder and
schedule a revert to the previous placeholder after 1000 ms. -/
def searchClick (q : String) (now : Nat) (s : PageState) : PageState × SearchAction :=
  let qt := jsToLower (jsTrim q)
  if qt = "" then
    ({ s with focusedGameBtn := true }, .focusTarget)
  else if searchMatches qt s.gameBtnLabel then
    ({ s with focusedGameBtn := true }, .focusTarget)
  else
    ({ s with
        placeholder := notFoundMsg,
        timers := s.timers ++ [(now + 1000, s.placeholder)] }, .notFound)

/-- Stable insertion of a timer into a list sorted by fire time: a timer
goes after every already-queued timer with an earlier or equal fire time
(JavaScript timer ordering). -/
def insertTimer (t : Nat × String) : List (Nat × String) → List (Nat × String)
  | [] => [t]
  | h :: r => if t.1 < h.1 then t :: h :: r else h :: insertTimer t r

/-- The scheduling-order timer list rearranged into firing order. -/
def sortTimers (l : List (Nat × String)) : List (Nat × String) :=
  l.foldl (fun acc t => insertTimer t acc) []

/-- Let every pending `setTimeout` callback fire, in firing order: each one
assigns its captured placeholder value back (app.js line 40). -/
def runTimers (s : PageState) : PageState :=
  { (sortTimers s.timers).foldl (fun st t => { st with placeholder := t.2 }) s with
    timers := [] }

/-- The `originalLogoStyle` snapshot of app.js line 20:
`titleLogo ? titleLogo.getAttribute("style") || "" : ""`. -/
def snapshotLogo (s : PageState) : String :=
  match s.logo with
  | none => ""
  | some v => styleAttrString v

/-- One full enter/exit cycle: activate a card, then a confirmed exit via
the back button, under a fixed snapshot. -/
def enterExitCycle (origHTML origLogo : String) (c : Card) (s : PageState) : PageState :=
  (backBtnClick origHTML origLogo true (openEmulator (.card c) s).state).state

/-! ### Concrete sample states for witnesses and counterexamples -/

/-- A sample game card with both data attributes present and non-empty. -/
def sampleCard : Card := { rom := some "/a.gba", title := some "Foo" }

/-- A typical freshly loaded menu state. -/
def menuState : PageState :=
  { pageCards := [sampleCard],
    launch := .html "<div id=gameBtn></div>",
    logo := some (.raw "height: 80px;"),
    controlsDisplay := some "",
    gameBtnLabel := "POKEMON ROJO FUEGO",
    placeholder := "Buscar juego...",
    timers := [],
    focusedGameBtn := false,
    scripts := [],
    globals := {},
    emulator := none }

/-- An in-game state with the session DOM mounted and listeners wired. -/
def sessionMounted : PageState :=
  { menuState with launch := .session { errors := [], backWired := true, fullWired := true } }

/-! ### Helper lemmas -/

theorem backBtnClick_confirmed_launch (oH oL : String) (s : PageState) :
    (backBtnClick oH oL true s).state.launch = .html oH := by
  simp [backBtnClick, restoreMenuUIState]

theorem backBtnClick_confirmed_logo (oH oL : String) (s : PageState) :
    (backBtnClick oH oL true s).state.logo =
      s.logo.map (fun _ => if oL = "" then StyleVal.absent else .raw oL) := by
  simp [backBtnClick, restoreMenuUIState]

theorem openEmulator_card_logo (c : Card) (s : PageState) :
    (openEmulator (.card c) s).state.logo = s.logo ∨
      (openEmulator (.card c) s).state.logo = s.logo.map .compact := by
  by_cases h : gameMounted s = true
  · left
    simp [openEmulator, h]
  · right
    simp [openEmulator, h, resolveCard, enterGameUIState]

theorem searchClick_notFound_state {q : String} {now : Nat} {s : PageState}
    (h : (searchClick q now s).2 = .notFound) :
    (searchClick q now s).1 =
      { s with placeholder := notFoundMsg,
               timers := s.timers ++ [(now + 1000, s.placeholder)] } := by
  by_cases hq : jsToLower (jsTrim q) = ""
  · simp [searchClick, hq] at h
  · by_cases hm : searchMatches (jsToLower (jsTrim q)) s.gameBtnLabel = true
    · simp [searchClick, hq, hm] at h
    · simp [searchClick, hq, hm]

theorem searchClick_focus_state {q : String} {now : Nat} {s : PageState}
    (h : (searchClick q now s).2 = .focusTarget) :
    (searchClick q now s).1 = { s with focusedGameBtn := true } := by
  by_cases hq : jsToLower (jsTrim q) = ""
  · simp [searchClick, hq]
  · by_cases hm : searchMatches (jsToLower (jsTrim q)) s.gameBtnLabel = true
    · simp [searchClick, hq, hm]
    · simp [searchClick, hq, hm] at h

/-! ### Claims -/

/-- C2: while a game mount point (`#game`) exists, invoking the
Menu→InGame transition again is a complete no-op: the page state is
unchanged, nothing is thrown, and no observable effect (DOM mutation,
configuration write, script load) occurs — so at most one game session is
ever active. -/
theorem openEmulator_mounted_noop (arg : CardArg) (s : PageState)
    (h : gameMounted s = true) :
    openEmulator arg s = { state := s, thrown := none, effects := [] } := by
  simp [openEmulator, h]

theorem openEmulator_mounted_noop_witness :
    gameMounted sessionMounted = true ∧
      openEmulator .noArg sessionMounted =
        { state := sessionMounted, thrown := none, effects := [] } :=
  ⟨rfl, openEmulator_mounted_noop .noArg sessionMounted rfl⟩

/-- C9: the Exit control always presents the blocking confirmation prompt,
whose text explicitly warns that unsaved progress will not be saved; on
decline the page state is returned verbatim (session DOM, configuration,
everything unchanged — so the session stays InGame) and the prompt is the
only observable effect. -/
theorem backBtn_declined_no_side_effects (origHTML origLogo : String) (s : PageState) :
    backBtnClick origHTML origLogo false s =
        { state := s, thrown := none, effects := [.confirmPrompt confirmText] } ∧
      jsIncludes confirmText "NO se guardará el progreso" = true := by
  refine ⟨by simp [backBtnClick], by decide⟩

/-- C6: a loader-script load failure appends the fixed, non-empty,
human-readable error text to the mount element's children, throws nothing,
and leaves the session mounted (the back-button wiring recorded in the
session DOM is carried over unchanged, so Exit stays operable). -/
theorem scriptOnError_visible_error (s : PageState) (d : SessionDom)
    (h : s.launch = .session d) :
    (scriptOnError s).state.launch =
        .session { d with errors := d.errors ++ [loaderErrMsg] } ∧
      loaderErrMsg ≠ "" ∧
      gameMounted (scriptOnError s).state = true ∧
      (scriptOnError s).thrown = none := by
  refine ⟨?_, by decide, ?_, ?_⟩ <;> simp [scriptOnError, h, gameMounted]

theorem scriptOnError_visible_error_witness :
    (scriptOnError sessionMounted).state.launch =
        .session { errors := [loaderErrMsg], backWired := true, fullWired := true } ∧
      loaderErrMsg ≠ "" ∧
      gameMounted (scriptOnError sessionMounted).state = true ∧
      (scriptOnError sessionMounted).thrown = none := by
  have h := scriptOnError_visible_error sessionMounted
    { errors := [], backWired := true, fullWired := true } rfl
  simpa using h

/-- C4 (counterexample to the claim as stated): a GameEntry whose
`data-rom` attribute is present but empty (resource locator `""`) does not
get that locator into the configuration surface — the empty string is falsy
in `rom || default`, so the literal default path is written instead. -/
theorem openEmulator_empty_rom_not_exact :
    (openEmulator (.card { rom := some "", title := some "Foo" }) menuState).state.globals.gameUrl =
        some defaultRom ∧
      (openEmulator (.card { rom := some "", title := some "Foo" })
          menuState).state.globals.gameUrl ≠ some "" := by
  refine ⟨rfl, by decide⟩

/-- C4 (amended): activating a GameEntry whose `data-rom` and `data-title`
attributes are present and non-empty populates the `EJS_*` configuration
surface with exactly that resource locator, that display name, core
`"gba"`, autostart `true`, both storage-disable flags `true` (and the fixed
mount selector and data path), and every configuration write precedes the
loader-script append in the effect order. -/
theorem openEmulator_configures_engine (s : PageState) (c : Card) (r t : String)
    (hm : gameMounted s = false) (hr : c.rom = some r) (hr0 : r ≠ "")
    (ht : c.title = some t) (ht0 : t ≠ "") :
    (openEmulator (.card c) s).state.globals =
        { player := some "#game", gameUrl := some r, gameName := some t,
          core := some "gba", pathtodata := some pathtodataVal, startOnLoaded := some true,
          disableDatabases := some true, disableLocalStorage := some true } ∧
      (openEmulator (.card c) s).effects =
        configWriteEffects ++ [.scriptAppend (pathtodataVal ++ "loader.js")] ∧
      (openEmulator (.card c) s).thrown = none := by
  refine ⟨?_, ?_, ?_⟩ <;>
    simp [openEmulator, hm, resolveCard, jsTruthyOr, hr, ht, hr0, ht0]

theorem openEmulator_configures_engine_witness :
    (openEmulator (.card sampleCard) menuState).state.globals =
        { player := some "#game", gameUrl := some "/a.gba", gameName := some "Foo",
          core := some "gba", pathtodata := some pathtodataVal, startOnLoaded := some true,
          disableDatabases := some true, disableLocalStorage := some true } ∧
      (openEmulator (.card sampleCard) menuState).effects =
        configWriteEffects ++ [.scriptAppend (pathtodataVal ++ "loader.js")] ∧
      (openEmulator (.card sampleCard) menuState).thrown = none :=
  openEmulator_configures_engine menuState sampleCard "/a.gba" "Foo"
    rfl rfl (by decide) rfl (by decide)

/-- C3: the search handler yields `focusTarget` exactly when the trimmed
lowercased query is empty, or the lowercased game-button label contains it,
or it contains one of the fixed keywords "rojo" / "pokemon" / "buscar"; a
`focusTarget` result focuses the game button, and a `notFound` result shows
the transient "No encontrado" placeholder and schedules its revert to the
previous placeholder 1000 ms later. -/
theorem search_classification (q : String) (now : Nat) (s : PageState) :
    ((searchClick q now s).2 = .focusTarget ↔
        (jsToLower (jsTrim q) = "" ∨
          jsIncludes (jsToLower s.gameBtnLabel) (jsToLower (jsTrim q)) = true ∨
          jsIncludes (jsToLower (jsTrim q)) "rojo" = true ∨
          jsIncludes (jsToLower (jsTrim q)) "pokemon" = true ∨
          jsIncludes (jsToLower (jsTrim q)) "buscar" = true)) ∧
      ((searchClick q now s).2 = .focusTarget →
        (searchClick q now s).1.focusedGameBtn = true) ∧
      ((searchClick q now s).2 = .notFound →
        (searchClick q now s).1.placeholder = notFoundMsg ∧
          (searchClick q now s).1.timers = s.timers ++ [(now + 1000, s.placeholder)]) := by
  by_cases hq : jsToLower (jsTrim q) = ""
  · simp [searchClick, hq]
  · by_cases hm : searchMatches (jsToLower (jsTrim q)) s.gameBtnLabel = true
    · have hm' := hm
      simp only [searchMatches, Bool.or_eq_true] at hm'
      simp [searchClick, hq, hm]
      tauto
    · have hm' := hm
      simp only [searchMatches, Bool.or_eq_true, not_or, Bool.not_eq_true] at hm'
      simp [searchClick, hq, hm, hm'.1.1.1, hm'.1.1.2, hm'.1.2, hm'.2]

theorem search_classification_witness :
    (searchClick "zzz" 0 menuState).2 = .notFound ∧
      (searchClick "zzz" 0 menuState).1.placeholder = notFoundMsg ∧
      (searchClick "zzz" 0 menuState).1.timers = [(1000, "Buscar juego...")] := by
  obtain ⟨-, -, h3⟩ := search_classification "zzz" 0 menuState
  have h := h3 (by decide)
  exact ⟨by decide, h.1, by simpa using h.2⟩

/-- C8: on a confirmed exit nothing is thrown; the external exit hook is
invoked exactly when `EJS_emulator` exists and its `exit` member is a
function; a throwing hook is caught and logged as a console warning; the
loader scripts matching the two known data-path patterns are removed; and
the exit proceeds to restore the menu regardless of hook absence or
failure. -/
theorem backBtn_confirmed_best_effort (origHTML origLogo : String) (s : PageState) :
    (backBtnClick origHTML origLogo true s).thrown = none ∧
      (Effect.callExitHook ∈ (backBtnClick origHTML origLogo true s).effects ↔
        ∃ b, s.emulator = some (.fn b)) ∧
      (s.emulator = some (.fn true) →
        Effect.consoleWarn "EJS_emulator.exit failed" ∈
          (backBtnClick origHTML origLogo true s).effects) ∧
      (backBtnClick origHTML origLogo true s).state.scripts =
        s.scripts.filter (fun src =>
          !(jsStartsWith src (loaderSrcPatterns s).1 ||
            jsStartsWith src (loaderSrcPatterns s).2)) ∧
      (backBtnClick origHTML origLogo true s).state.launch = .html origHTML := by
  rcases hs : s.emulator with - | hook
  · refine ⟨rfl, ?_, ?_, ?_, ?_⟩ <;> simp [backBtnClick, restoreMenuUIState, hs]
  · rcases hook with - | b
    · refine ⟨rfl, ?_, ?_, ?_, ?_⟩ <;> simp [backBtnClick, restoreMenuUIState, hs]
    · rcases b with - | -
      · refine ⟨rfl, ?_, ?_, ?_, ?_⟩ <;> simp [backBtnClick, restoreMenuUIState, hs]
      · refine ⟨rfl, ?_, ?_, ?_, ?_⟩ <;> simp [backBtnClick, restoreMenuUIState, hs]

/-- An in-game state with a throwing exit hook and one appended loader
script, used to exercise the confirmed-exit path. -/
def sessionWithHook : PageState :=
  { sessionMounted with
    emulator := some (.fn true),
    globals := { pathtodata := some pathtodataVal },
    scripts := [pathtodataVal ++ "loader.js", "other.js"] }

theorem backBtn_confirmed_best_effort_witness :
    (backBtnClick "MENU" "" true sessionWithHook).thrown = none ∧
      Effect.callExitHook ∈ (backBtnClick "MENU" "" true sessionWithHook).effects ∧
      Effect.consoleWarn "EJS_emulator.exit failed" ∈
        (backBtnClick "MENU" "" true sessionWithHook).effects ∧
      (backBtnClick "MENU" "" true sessionWithHook).state.scripts = ["other.js"] ∧
      (backBtnClick "MENU" "" true sessionWithHook).state.launch = .html "MENU" := by
  obtain ⟨h1, h2, h3, h4, h5⟩ := backBtn_confirmed_best_effort "MENU" "" sessionWithHook
  refine ⟨h1, h2.mpr ⟨true, rfl⟩, h3 rfl, ?_, h5⟩
  rw [h4]
  decide

/-- C10: two rapid searches — the first not matching (so it schedules the
1000 ms placeholder revert), the second matching within the delay window —
end, once all pending timers have fired, with the search input back in its
original non-error placeholder and no timer pending: the stale
"No encontrado" text does not survive. -/
theorem rapid_search_no_stale_message (s : PageState) (q1 q2 : String) (d : Nat)
    (h0 : s.timers = []) (_hd : d < 1000)
    (hn : s.placeholder ≠ notFoundMsg)
    (h1 : (searchClick q1 0 s).2 = .notFound)
    (h2 : (searchClick q2 d (searchClick q1 0 s).1).2 = .focusTarget) :
    (runTimers (searchClick q2 d (searchClick q1 0 s).1).1).placeholder = s.placeholder ∧
      (runTimers (searchClick q2 d (searchClick q1 0 s).1).1).placeholder ≠ notFoundMsg ∧
      (runTimers (searchClick q2 d (searchClick q1 0 s).1).1).timers = [] := by
  have e2 := searchClick_focus_state h2
  have e1 := searchClick_notFound_state h1
  rw [e2, e1]
  refine ⟨?_, ?_, ?_⟩ <;>
    simp [runTimers, sortTimers, insertTimer, h0, hn]

theorem rapid_search_no_stale_message_witness :
    (runTimers (searchClick "rojo" 500 (searchClick "zzz" 0 menuState).1).1).placeholder =
        "Buscar juego..." ∧
      (runTimers (searchClick "rojo" 500 (searchClick "zzz" 0 menuState).1).1).timers = [] := by
  obtain ⟨ha, -, hc⟩ := rapid_search_no_stale_message menuState "zzz" "rojo" 500
    rfl (by decide) (by decide) (by decide) (by decide)
  exact ⟨ha, hc⟩

/-- C1 (counterexample to the claim as stated): if the logo element starts
with a present but empty `style` attribute, the snapshot stores `""`
(`getAttribute("style") || ""`), so the confirmed exit removes the
attribute instead of restoring it — the menu markup comes back exactly,
but the logo's attributes are not identical attribute-for-attribute to the
state before entry. -/
def emptyStyleMenu : PageState := { menuState with logo := some (.raw "") }

theorem roundtrip_empty_style_attr_not_restored :
    (enterExitCycle "<div id=gameBtn></div>" (snapshotLogo emptyStyleMenu) sampleCard
          emptyStyleMenu).logo = some .absent ∧
      emptyStyleMenu.logo = some (.raw "") ∧
      (enterExitCycle "<div id=gameBtn></div>" (snapshotLogo emptyStyleMenu) sampleCard
          emptyStyleMenu).logo ≠ emptyStyleMenu.logo := by
  refine ⟨rfl, rfl, by decide⟩

/-- C1 (amended): provided the logo's initial `style` attribute is absent
or non-empty (the only page-initial states the snapshot can tell apart —
an initially present-but-empty attribute is removed instead, see the
counterexample), any non-zero number of enter/exit cycles with confirmed
exits restores the menu region's content and the logo's style attribute
exactly to the snapshot taken at initialization, which equals the state
before the first entry. -/
theorem menu_roundtrip_restores_snapshot (s0 : PageState) (h0 : String)
    (_hL : s0.launch = .html h0)
    (hlogo : s0.logo = none ∨ s0.logo = some .absent ∨
      ∃ str, str ≠ "" ∧ s0.logo = some (.raw str))
    (cs : List Card) (hcs : cs ≠ []) :
    (cs.foldl (fun st c => enterExitCycle h0 (snapshotLogo s0) c st) s0).launch =
        .html h0 ∧
      (cs.foldl (fun st c => enterExitCycle h0 (snapshotLogo s0) c st) s0).logo =
        s0.logo := by
  have hconst : ∀ (o : Option StyleVal), o.isSome = s0.logo.isSome →
      (o.map (fun _ => if snapshotLogo s0 = "" then StyleVal.absent
        else .raw (snapshotLogo s0))) = s0.logo := by
    intro o ho
    rcases hlogo with h | h | ⟨str, hstr, h⟩ <;> rw [h] at ho ⊢ <;>
      cases o <;> simp_all [snapshotLogo, styleAttrString]
  have hcyc : ∀ (c : Card) (s : PageState), s.logo.isSome = s0.logo.isSome →
      (enterExitCycle h0 (snapshotLogo s0) c s).logo = s0.logo := by
    intro c s hs
    unfold enterExitCycle
    rw [backBtnClick_confirmed_logo]
    rcases openEmulator_card_logo c s with h | h <;> rw [h]
    · exact hconst s.logo hs
    · refine hconst (s.logo.map .compact) ?_
      cases hsl : s.logo <;> rw [hsl] at hs <;> simpa using hs
  have keyLogo : ∀ (cs : List Card) (s : PageState), s.logo = s0.logo →
      (cs.foldl (fun st c => enterExitCycle h0 (snapshotLogo s0) c st) s).logo = s0.logo := by
    intro cs
    induction cs with
    | nil => intro s hs; simpa using hs
    | cons c rest ih =>
      intro s hs
      simp only [List.foldl_cons]
      exact ih _ (hcyc c s (by rw [hs]))
  have keyLaunch : ∀ (cs : List Card) (s : PageState), cs ≠ [] →
      (cs.foldl (fun st c => enterExitCycle h0 (snapshotLogo s0) c st) s).launch =
        .html h0 := by
    intro cs
    induction cs with
    | nil => intro s h; exact absurd rfl h
    | cons c rest ih =>
      intro s _
      cases rest with
      | nil =>
        simp only [List.foldl_cons, List.foldl_nil]
        unfold enterExitCycle
        exact backBtnClick_confirmed_launch _ _ _
      | cons c2 r2 =>
        simp only [List.foldl_cons]
        exact ih _ (by simp)
  exact ⟨keyLaunch cs s0 hcs, keyLogo cs s0 rfl⟩

theorem menu_roundtrip_restores_snapshot_witness :
    ([sampleCard, sampleCard].foldl
        (fun st c => enterExitCycle "<div id=gameBtn></div>" (snapshotLogo menuState) c st)
        menuState).launch = .html "<div id=gameBtn></div>" ∧
      ([sampleCard, sampleCard].foldl
        (fun st c => enterExitCycle "<div id=gameBtn></div>" (snapshotLogo menuState) c st)
        menuState).logo = menuState.logo :=
  menu_roundtrip_restores_snapshot menuState "<div id=gameBtn></div>" rfl
    (Or.inr (Or.inr ⟨"height: 80px;", by decide, rfl⟩)) [sampleCard, sampleCard] (by decide)

/-- C5 (code evaluated at the failing input): after a confirmed exit the
restored `#gameBtn` click binding passes `openEmulator` directly as the
listener, so the MouseEvent object arrives as `cardElement`; it is truthy,
the first-card fallback is skipped, and reading `.dataset.rom` on it throws
an uncaught TypeError — the session is never configured from the first
GameEntry's attributes (the configuration surface stays unset). -/
def restoredMenuWithCard : PageState :=
  { menuState with pageCards := [{ rom := some "/custom.gba", title := some "Custom" }] }

theorem rebound_click_activation_throws :
    (openEmulator .clickEvent restoredMenuWithCard).thrown =
        some (.typeError "Cannot read properties of undefined (reading rom)") ∧
      (openEmulator .clickEvent restoredMenuWithCard).state.globals.gameUrl = none ∧
      (openEmulator .clickEvent restoredMenuWithCard).effects = [] :=
  ⟨rfl, rfl, rfl⟩

/-- C7 (code evaluated at the failing input): an activation with no
GameEntry resolvable at all (no argument supplied and no game card in the
document) reaches `cardElement.dataset` on `null` and throws an uncaught
TypeError — after having already replaced the menu with the session DOM,
so the mount exists (blocking any retry) but no engine and no Exit wiring
were ever set up. -/
def menuWithoutCards : PageState := { menuState with pageCards := [] }

theorem activation_without_entry_throws :
    (openEmulator .noArg menuWithoutCards).thrown =
        some (.typeError "Cannot read properties of null (reading dataset)") ∧
      gameMounted (openEmulator .noArg menuWithoutCards).state = true :=
  ⟨rfl, rfl⟩

end PokeApp
